import Mathlib

/-!
# Verification of the sqlMate backend core (src-tauri)

A shallow embedding of the connection registry, the streaming and one-shot
query executors, the filter/sort clause builders and the per-dialect value
mappers of `src/src-tauri/src/core` (`connection_manager.rs`,
`query_engine.rs`), together with proofs about the properties stated in the
specification.

Modelling conventions:
* Rust `String`s that the code manipulates character by character are
  modelled as `List Char` (`Str`), so that the Rust `str` operations
  (`trim`, `to_uppercase`, `starts_with`, `replace`, `trim_end_matches`)
  become plain list functions.  Rust's Unicode-aware `to_uppercase` /
  `is_whitespace` are modelled at ASCII granularity (`Char.toUpper` and the
  four ASCII whitespace characters), which is faithful on the SQL keyword
  checks the code performs.
* `HashMap<Uuid, V>` registries are modelled as association lists keyed by
  `Nat`; `insert` overwrites, `remove` deletes the first (hence only)
  binding, matching `HashMap::insert` / `HashMap::remove`.
* u32 arithmetic (`page * page_size` in `execute_query`) wraps modulo
  `2 ^ 32`, as compiled Rust release code does.
* The sqlx pool behind a connection id is modelled as an oracle `Db` of
  functions `fetch_all` / `fetch_one` from SQL text to row lists; the
  executors are instrumented to also return the list of SQL statements they
  handed to the oracle, which is what the SQL-construction properties are
  about.
* `serde_json::Number` is an opaque numeric carrier (`JsonNum := Int`); the
  properties under scrutiny never inspect numeric payloads.
-/

/-- Model of Rust strings manipulated by the code: a list of characters. -/
abbrev Str := List Char

/-- The single-quote character (written via its code point to keep the
sources free of quote literals). -/
def sqC : Char := Char.ofNat 39

/-- The double-quote character. -/
def dqC : Char := Char.ofNat 34

/-- The backtick character used by MySQL identifier quoting. -/
def btC : Char := Char.ofNat 96

/-- The semicolon character. -/
def semiC : Char := Char.ofNat 59

/-- ASCII whitespace, the fragment of Rust `char::is_whitespace` relevant to
SQL text. -/
def isWs (c : Char) : Bool :=
  c = Char.ofNat 32 || c = Char.ofNat 9 || c = Char.ofNat 10 || c = Char.ofNat 13

/-- Model of Rust `str::trim`: drop whitespace from both ends. -/
def rustTrim (s : Str) : Str :=
  ((s.dropWhile isWs).reverse.dropWhile isWs).reverse

/-- Model of Rust `str::to_uppercase` (ASCII fragment). -/
def rustToUpper (s : Str) : Str := s.map Char.toUpper

/-- Model of Rust `str::to_lowercase` (ASCII fragment). -/
def rustToLower (s : Str) : Str := s.map Char.toLower

/-- Model of Rust `str::trim_end_matches(';')`: drop every trailing
semicolon. -/
def trimEndSemis (s : Str) : Str :=
  (s.reverse.dropWhile (fun c => c = semiC)).reverse

/-- Model of Rust `str::replace` for the single-character patterns the code
uses (`'` ↦ `''`, `"` ↦ `""`, `` ` `` ↦ ```` `` ````). -/
def replaceChar (pat : Char) (rep : Str) (s : Str) : Str :=
  s.flatMap (fun c => if c = pat then rep else [c])

/-- Model of Rust `str::starts_with` on strings. -/
def strStartsWith (s pat : Str) : Bool := pat.isPrefixOf s

/-- Model of Rust `str::contains` with a string pattern. -/
def strContains (s pat : Str) : Bool :=
  match s with
  | [] => pat.isEmpty
  | _ :: t => pat.isPrefixOf s || strContains t pat

/-- Decimal rendering of a `u32`/`u64` as the Rust `format!` macro prints
it. -/
def natStr (n : Nat) : Str := (Nat.repr n).toList

/-- Model of `wrap_pagination(sql, limit, offset)` from `query_engine.rs`. -/
def wrap_pagination (sql : Str) (limit offset : Nat) : Str :=
  let trimmed := rustTrim sql
  if strStartsWith (rustToUpper trimmed) "SELECT".toList then
    "SELECT * FROM (".toList ++ trimEndSemis trimmed ++ ") AS __sqlmate_q LIMIT ".toList
      ++ natStr limit ++ " OFFSET ".toList ++ natStr offset
  else
    trimmed

/-- Model of `wrap_count(sql)` from `query_engine.rs`. -/
def wrap_count (sql : Str) : Str :=
  let trimmed := rustTrim sql
  if strStartsWith (rustToUpper trimmed) "SELECT".toList then
    "SELECT COUNT(*) FROM (".toList ++ trimEndSemis trimmed ++ ") AS __sqlmate_count_q".toList
  else
    []

/-- Model of `FilterConfig` from `core/mod.rs`. -/
structure FilterConfig where
  id : Str
  column : Str
  operator : Str
  value : Str
  enabled : Bool
deriving DecidableEq, Repr

/-- Identifier quoting used by `build_where_clause`: backticks for MySQL
(inner backticks doubled), double quotes otherwise (inner quotes
doubled). -/
def quoteCol (dbType : String) (col : Str) : Str :=
  if dbType = "mysql" then [btC] ++ replaceChar btC [btC, btC] col ++ [btC]
  else [dqC] ++ replaceChar dqC [dqC, dqC] col ++ [dqC]

/-- Model of the quote-doubling value escape of `build_where_clause`. -/
def escapeQuotes (v : Str) : Str := replaceChar sqC [sqC, sqC] v

/-- The per-filter condition of `build_where_clause` (the `match` on
`f.operator` in `query_engine.rs`). -/
def buildCondition (dbType : String) (f : FilterConfig) : Str :=
  let col := quoteCol dbType f.column
  let escaped := escapeQuotes f.value
  if f.operator = "=".toList then col ++ " = ".toList ++ [sqC] ++ escaped ++ [sqC]
  else if f.operator = "!=".toList then col ++ " != ".toList ++ [sqC] ++ escaped ++ [sqC]
  else if f.operator = ">".toList then col ++ " > ".toList ++ [sqC] ++ escaped ++ [sqC]
  else if f.operator = "<".toList then col ++ " < ".toList ++ [sqC] ++ escaped ++ [sqC]
  else if f.operator = ">=".toList then col ++ " >= ".toList ++ [sqC] ++ escaped ++ [sqC]
  else if f.operator = "<=".toList then col ++ " <= ".toList ++ [sqC] ++ escaped ++ [sqC]
  else if f.operator = "Contains".toList || f.operator = "LIKE".toList then
    col ++ " LIKE ".toList ++ [sqC] ++ "%".toList ++ escaped ++ "%".toList ++ [sqC]
  else if f.operator = "Starts With".toList || f.operator = "ILIKE".toList then
    if dbType = "postgres" && f.operator = "ILIKE".toList then
      col ++ " ILIKE ".toList ++ [sqC] ++ escaped ++ "%".toList ++ [sqC]
    else
      col ++ " LIKE ".toList ++ [sqC] ++ escaped ++ "%".toList ++ [sqC]
  else if f.operator = "Ends With".toList then
    col ++ " LIKE ".toList ++ [sqC] ++ "%".toList ++ escaped ++ [sqC]
  else if f.operator = "IN".toList then
    col ++ " IN (".toList ++ f.value ++ ")".toList
  else if f.operator = "IS NULL".toList then col ++ " IS NULL".toList
  else if f.operator = "IS NOT NULL".toList then col ++ " IS NOT NULL".toList
  else col ++ " = ".toList ++ [sqC] ++ escaped ++ [sqC]

/-- Model of `build_where_clause(filters, db_type)` from `query_engine.rs`. -/
def build_where_clause (filters : List FilterConfig) (dbType : String) : Str :=
  if filters.isEmpty then []
  else
    let conditions := (filters.filter (fun f => f.enabled)).map (buildCondition dbType)
    if conditions.isEmpty then []
    else "WHERE ".toList ++ (List.intercalate " AND ".toList conditions)

/-- Model of `build_order_clause(sort_column, sort_direction, db_type)` from
`query_engine.rs`. -/
def build_order_clause (sortColumn : Option Str) (sortDirection : Option Str)
    (dbType : String) : Str :=
  match sortColumn with
  | some col =>
      let quoted := quoteCol dbType col
      let direction := if sortDirection = some "DESC".toList then "DESC".toList else "ASC".toList
      "ORDER BY ".toList ++ quoted ++ " ".toList ++ direction
  | none => []

/-- Opaque carrier for `serde_json::Number` payloads; the verified
properties never inspect the numeric value itself. -/
abbrev JsonNum := Int

/-- The JSON scalars the value mappers emit (`serde_json::Value` restricted
to the constructors the mappers produce). -/
inductive JValue where
  | null : JValue
  | bool (b : Bool) : JValue
  | num (n : JsonNum) : JValue
  | str (s : Str) : JValue
deriving DecidableEq, Repr

/-- A raw driver column value as the mappers see it: its nullness, its
textual type name, the full `type_info().to_string()` rendering (used by the
MySQL `TINYINT(1)` probe) and the outcome of every `try_get::<T>` decoding
the mappers attempt.  Temporal and uuid decodings are carried in their
already-rendered textual form; the float decodings carry
`serde_json::Number::from_f64`'s result (`none` for NaN/infinite). -/
structure RawValue where
  isNull : Bool
  typeName : Str
  typeInfoFull : Str
  asBool : Option Bool := none
  asUuid : Option Str := none
  asI64 : Option JsonNum := none
  asI32 : Option JsonNum := none
  asI16 : Option JsonNum := none
  asI8 : Option JsonNum := none
  asU64 : Option JsonNum := none
  asU32 : Option JsonNum := none
  asF64 : Option (Option JsonNum) := none
  asF32 : Option (Option JsonNum) := none
  asDecimal : Option Str := none
  asString : Option Str := none
  asBytes : Option (List Nat) := none
  asDtUtc : Option Str := none
  asDtNaive : Option Str := none
  asDate : Option Str := none
  asTime : Option Str := none
deriving DecidableEq, Repr

/-- Model of `type_name_is_text` from `query_engine.rs`. -/
def type_name_is_text (name : Str) : Bool :=
  name = "text".toList || strContains name "char".toList || name = "name".toList
    || name = "citext".toList || name = "json".toList || name = "jsonb".toList
    || name = "enum".toList

/-- Hex rendering of a byte as `format!("{:02x}", b)` prints it. -/
def byteHex (b : Nat) : Str :=
  let digit (d : Nat) : Char := if d < 10 then Char.ofNat (48 + d) else Char.ofNat (87 + (d - 10))
  [digit ((b / 16) % 16), digit (b % 16)]

/-- The marker `0x` followed by the lowercase hex of all bytes. -/
def bytesHex (bs : List Nat) : Str := "0x".toList ++ bs.flatMap byteHex

/-- The signed-integer decode chain (i64, i32, i16, i8) shared by the three
mappers; falls back to `NumError(<type>)`. -/
def intChain (r : RawValue) (t : Str) : JValue :=
  match r.asI64 with
  | some n => .num n
  | none => match r.asI32 with
    | some n => .num n
    | none => match r.asI16 with
      | some n => .num n
      | none => match r.asI8 with
        | some n => .num n
        | none => .str ("NumError(".toList ++ t ++ ")".toList)

/-- The temporal decode chain (UTC datetime, naive datetime, date, time,
string) shared by the Postgres and MySQL mappers. -/
def timeChain (r : RawValue) : JValue :=
  match r.asDtUtc with
  | some s => .str s
  | none => match r.asDtNaive with
    | some s => .str s
    | none => match r.asDate with
      | some s => .str s
      | none => match r.asTime with
        | some s => .str s
        | none => match r.asString with
          | some s => .str s
          | none => .str "Invalid Date".toList

/-- The boolean type-name guard of the Postgres mapper. -/
def isBoolTypePG (t : Str) : Bool :=
  t = "bool".toList || t = "boolean".toList || t = "bit".toList

/-- The `uuid` type-name guard of the Postgres mapper. -/
def isUuidType (t : Str) : Bool := t = "uuid".toList

/-- The `bytea` type-name guard of the Postgres mapper. -/
def isByteaType (t : Str) : Bool := strContains t "bytea".toList

/-- The `TINYINT(1)` guard of the MySQL mapper (`type_name == "tinyint"`
and the full type-info rendering contains `TINYINT(1)`). -/
def isTinyint1My (t full : Str) : Bool :=
  t = "tinyint".toList && strContains full "TINYINT(1)".toList

/-- The `blob` type-name guard of the SQLite mapper. -/
def isBlobTypeSq (t : Str) : Bool := strContains t "blob".toList

/-- The integer-family type-name guard shared by the Postgres and MySQL
mappers (`contains("int") || == "serial" || == "year"`). -/
def isIntTypeName (t : Str) : Bool :=
  strContains t "int".toList || t = "serial".toList || t = "year".toList

/-- The floating-family type-name guard of the Postgres and MySQL mappers. -/
def isFloatTypeName (t : Str) : Bool :=
  strContains t "float".toList || t = "real".toList || t = "double".toList
    || t = "numeric".toList || t = "decimal".toList

/-- The temporal type-name guard of the Postgres mapper. -/
def isTimeTypePG (t : Str) : Bool :=
  strContains t "time".toList || t = "date".toList

/-- The temporal type-name guard of the MySQL mapper (adds `timestamp`). -/
def isTimeTypeMy (t : Str) : Bool :=
  strContains t "time".toList || t = "date".toList || t = "timestamp".toList

/-- The blob/binary type-name guard of the MySQL mapper. -/
def isBinTypeMy (t : Str) : Bool :=
  strContains t "blob".toList || strContains t "binary".toList

/-- The boolean type-name guard of the SQLite mapper. -/
def isBoolTypeSq (t : Str) : Bool :=
  t = "bool".toList || t = "boolean".toList

/-- The integer type-name guard of the SQLite mapper. -/
def isIntTypeSq (t : Str) : Bool :=
  strContains t "int".toList || t = "integer".toList

/-- The floating type-name guard of the SQLite mapper. -/
def isFloatTypeSq (t : Str) : Bool :=
  strContains t "float".toList || t = "real".toList || t = "double".toList

/-- One cell of the `postgres_row_to_values!` macro in `query_engine.rs`. -/
def postgresMapCell (r : RawValue) : JValue :=
  if r.isNull then .null else
  let t := rustToLower r.typeName
  if isBoolTypePG t then
    match r.asBool with
    | some b => .bool b
    | none => .null
  else if isUuidType t then
    match r.asUuid with
    | some u => .str u
    | none => .str "Invalid UUID".toList
  else if isIntTypeName t then
    intChain r t
  else if isFloatTypeName t then
    match r.asF64 with
    | some j => match j with
      | some n => .num n
      | none => .null
    | none => match r.asF32 with
      | some j => match j with
        | some n => .num n
        | none => .null
      | none => match r.asDecimal with
        | some d => .str d
        | none => .null
  else if type_name_is_text t then
    match r.asString with
    | some s => .str s
    | none => .str []
  else if isTimeTypePG t then
    timeChain r
  else if isByteaType t then
    match r.asBytes with
    | some bs => .str (bytesHex bs)
    | none => .str ("BinaryErr(".toList ++ t ++ ")".toList)
  else
    match r.asString with
    | some s => .str s
    | none => .str ("Binary/Complex (".toList ++ t ++ ")".toList)

/-- One cell of the `mysql_row_to_values!` macro in `query_engine.rs`. -/
def mysqlMapCell (r : RawValue) : JValue :=
  if r.isNull then .null else
  let t := rustToLower r.typeName
  if isTinyint1My t r.typeInfoFull then
    match r.asBool with
    | some b => .bool b
    | none => match r.asI8 with
      | some v => .bool (v != 0)
      | none => .null
  else if isIntTypeName t then
    match r.asI64 with
    | some n => .num n
    | none => match r.asI32 with
      | some n => .num n
      | none => match r.asI16 with
        | some n => .num n
        | none => match r.asI8 with
          | some n => .num n
          | none => match r.asU64 with
            | some n => .num n
            | none => match r.asU32 with
              | some n => .num n
              | none => .str ("NumError(".toList ++ t ++ ")".toList)
  else if isFloatTypeName t then
    match r.asF64 with
    | some j => match j with
      | some n => .num n
      | none => .null
    | none => match r.asF32 with
      | some j => match j with
        | some n => .num n
        | none => .null
      | none => match r.asDecimal with
        | some d => .str d
        | none => .null
  else if type_name_is_text t then
    match r.asString with
    | some s => .str s
    | none => .str []
  else if isTimeTypeMy t then
    timeChain r
  else if isBinTypeMy t then
    match r.asBytes with
    | some bs =>
        if bs.length = 16 then
          match r.asUuid with
          | some u => .str u
          | none => .str (bytesHex bs)
        else .str (bytesHex bs)
    | none => .str ("BinaryErr(".toList ++ t ++ ")".toList)
  else
    match r.asString with
    | some s => .str s
    | none => .str ("Binary/Complex (".toList ++ t ++ ")".toList)

/-- One cell of the `sqlite_row_to_values!` macro in `query_engine.rs`. -/
def sqliteMapCell (r : RawValue) : JValue :=
  if r.isNull then .null else
  let t := rustToLower r.typeName
  if isBoolTypeSq t then
    match r.asBool with
    | some b => .bool b
    | none => .null
  else if isIntTypeSq t then
    intChain r t
  else if isFloatTypeSq t then
    match r.asF64 with
    | some j => match j with
      | some n => .num n
      | none => .null
    | none => .null
  else if type_name_is_text t then
    match r.asString with
    | some s => .str s
    | none => .str []
  else if isBlobTypeSq t then
    match r.asBytes with
    | some bs => .str (bytesHex bs)
    | none => .str "Blob Error".toList
  else
    match r.asString with
    | some s => .str s
    | none => .str ("Binary/Complex (".toList ++ t ++ ")".toList)

/-- A driver row: its column names (from `row.columns()`) and raw column
values in column order.  The sqlx driver yields, for every row of one
statement, one raw value per column descriptor. -/
structure Row where
  cols : List Str
  vals : List RawValue
deriving Repr

/-- A whole row mapped through a per-dialect cell mapper, as the
`*_row_to_values!` macros do (one emitted scalar per column index). -/
def mapRow (cell : RawValue → JValue) (row : Row) : List JValue :=
  row.vals.map cell

/-- The events `execute_query_streaming` emits on the window sink
(`query-metadata`, `query-batch`, `query-complete`; all carry the same
`query_id` within one run, so the id is left implicit). -/
inductive SEvent where
  | metadata (cols : List Str) : SEvent
  | batch (rows : List (List JValue)) : SEvent
  | complete (totalRows : Nat) : SEvent
deriving DecidableEq, Repr

/-- Whether the cancellation token reports cancelled at loop iteration `i`:
the token is a latch, so once signalled (from iteration `cancelAt` on) it
stays signalled. -/
def isCancelled (cancelAt : Option Nat) (i : Nat) : Bool :=
  match cancelAt with
  | some k => decide (k ≤ i)
  | none => false

/-- The `stream_db!` loop of `QueryEngine::execute_query_streaming`
(`query_engine.rs`), one iteration per item the sqlx cursor yields.
State carried across iterations: the row index `i` (for the cancellation
latch), the current `batch`, the running `total` and the `columns_sent`
flag.  Returns the emitted events in order together with the function's
`Result`.  `batch_size` is the literal 1000 of the source. -/
def runAux (cell : RawValue → JValue) (cancelAt : Option Nat) :
    List (Except String Row) → Nat → List (List JValue) → Nat → Bool →
    List SEvent × Except String Unit
  | [], _, batch, total, _ =>
      ((if batch.isEmpty then [] else [SEvent.batch batch]) ++ [SEvent.complete total],
       Except.ok ())
  | item :: rest, i, batch, total, sent =>
      if isCancelled cancelAt i then ([], Except.ok ())
      else
        match item with
        | Except.error e => ([], Except.error e)
        | Except.ok row =>
            let evMeta : List SEvent := if sent then [] else [SEvent.metadata row.cols]
            let batch' := batch ++ [mapRow cell row]
            let total' := total + 1
            if 1000 ≤ batch'.length then
              let p := runAux cell cancelAt rest (i + 1) [] total' true
              (evMeta ++ SEvent.batch batch' :: p.1, p.2)
            else
              let p := runAux cell cancelAt rest (i + 1) batch' total' true
              (evMeta ++ p.1, p.2)

/-- Model of `QueryEngine::execute_query_streaming` for a resolved pool: run the
cursor items through the `stream_db!` loop starting from the initial
state (empty batch, zero rows, metadata not yet sent). -/
def streamRun (cell : RawValue → JValue) (items : List (Except String Row))
    (cancelAt : Option Nat) : List SEvent × Except String Unit :=
  runAux cell cancelAt items 0 [] 0 false

/-- The totals of the `query-complete` events of a trace. -/
def completeTotals (evs : List SEvent) : List Nat :=
  evs.filterMap (fun e => match e with | SEvent.complete n => some n | _ => none)

/-- The row lists of the `query-batch` events of a trace. -/
def batchLists (evs : List SEvent) : List (List (List JValue)) :=
  evs.filterMap (fun e => match e with | SEvent.batch b => some b | _ => none)

/-- The column lists of the `query-metadata` events of a trace. -/
def metaLists (evs : List SEvent) : List (List Str) :=
  evs.filterMap (fun e => match e with | SEvent.metadata cs => some cs | _ => none)

/-- Total number of rows across all `query-batch` events of a trace. -/
def batchRowSum (evs : List SEvent) : Nat :=
  ((batchLists evs).map List.length).sum

/-- Association-list model of `HashMap<Uuid, V>`; keys are the model of
the 128-bit connection UUIDs. -/
abbrev AssocMap (V : Type) := List (Nat × V)

namespace AssocMap

/-- Model of `HashMap::get` / `contains_key`. -/
def lookup (k : Nat) : AssocMap V → Option V
  | [] => none
  | (k', v) :: rest => if k' = k then some v else lookup k rest

/-- Model of `HashMap::insert` (overwrites any existing binding). -/
def insert (k : Nat) (v : V) (m : AssocMap V) : AssocMap V :=
  (k, v) :: m.filter (fun p => p.1 ≠ k)

/-- Model of `HashMap::remove`; also reports whether a binding was present
(`remove(id).is_some()`). -/
def remove (k : Nat) (m : AssocMap V) : AssocMap V :=
  m.filter (fun p => p.1 ≠ k)

/-- Model of `HashMap::contains_key`. -/
def contains (k : Nat) (m : AssocMap V) : Bool :=
  (m.lookup k).isSome

end AssocMap

/-- Model of `DatabaseType` from `core/mod.rs`. -/
inductive DatabaseType where
  | postgres
  | mysql
  | sqlite
deriving DecidableEq, Repr

/-- Model of `ConnectionConfig` from `core/mod.rs`. -/
structure ConnectionConfig where
  id : Nat
  name : String
  db_type : DatabaseType
  host : Option String := none
  port : Option Nat := none
  username : Option String := none
  database : Option String := none
  ssl_enabled : Bool := false
  ssl_mode : Option String := none
  ssl_ca_path : Option String := none
  ssl_cert_path : Option String := none
  ssl_key_path : Option String := none
  ssh_enabled : Bool := false
  ssh_host : Option String := none
  ssh_port : Option Nat := none
  ssh_username : Option String := none
  ssh_auth_method : Option String := none
  ssh_password : Option String := none
  ssh_private_key_path : Option String := none
  environment : Option String := none
  color_tag : Option String := none
deriving Repr

/-- Model of `SshTunnel` from `connection_manager.rs` (the forwarder task handle is not
observable in the model beyond the record's existence). -/
structure SshTunnel where
  local_port : Nat
deriving DecidableEq, Repr

/-- Oracle for a sqlx pool: what the database returns for each SQL text the
engine sends.  `fetch_all` backs `sqlx::query(..).fetch_all`, `fetch_one`
backs the `COUNT(*)` probe's `fetch_one`. -/
structure Db where
  fetch_all : Str → Except String (List Row)
  fetch_one : Str → Except String Row

/-- Model of the `ConnectionManager` registries from `connection_manager.rs`. -/
structure ManagerState where
  postgres_pools : AssocMap Db
  mysql_pools : AssocMap Db
  sqlite_pools : AssocMap Db
  configs : AssocMap ConnectionConfig
  passwords : AssocMap (Option String)
  tunnels : AssocMap SshTunnel

/-- Environment outcomes for one `connect_*` attempt: what
`establish_ssh_tunnel` and the pool construction (`connect_with` /
`connect`) would yield against the live network. -/
structure ConnectEnv where
  tunnel : Except String SshTunnel
  pool : Except String Db

/-- Model of `ConnectionManager::connect_postgres` (`connection_manager.rs`): when
`ssh_enabled`, the tunnel is built and registered first (replacing any
previous entry) and the pool dials 127.0.0.1:local_port; then the pool is
built and registered.  A tunnel or pool failure propagates the error,
leaving the remaining registries untouched. -/
def connect_postgres (s : ManagerState) (config : ConnectionConfig)
    (env : ConnectEnv) : ManagerState × Except String Unit :=
  if config.ssh_enabled then
    match env.tunnel with
    | Except.error e => (s, Except.error e)
    | Except.ok t =>
        let s1 := { s with tunnels := s.tunnels.insert config.id t }
        match env.pool with
        | Except.error e => (s1, Except.error e)
        | Except.ok p =>
            ({ s1 with postgres_pools := s1.postgres_pools.insert config.id p }, Except.ok ())
  else
    match env.pool with
    | Except.error e => (s, Except.error e)
    | Except.ok p =>
        ({ s with postgres_pools := s.postgres_pools.insert config.id p }, Except.ok ())

/-- Model of `ConnectionManager::connect_mysql` (`connection_manager.rs`); same shape
as the Postgres variant, registering into the MySQL pool registry. -/
def connect_mysql (s : ManagerState) (config : ConnectionConfig)
    (env : ConnectEnv) : ManagerState × Except String Unit :=
  if config.ssh_enabled then
    match env.tunnel with
    | Except.error e => (s, Except.error e)
    | Except.ok t =>
        let s1 := { s with tunnels := s.tunnels.insert config.id t }
        match env.pool with
        | Except.error e => (s1, Except.error e)
        | Except.ok p =>
            ({ s1 with mysql_pools := s1.mysql_pools.insert config.id p }, Except.ok ())
  else
    match env.pool with
    | Except.error e => (s, Except.error e)
    | Except.ok p =>
        ({ s with mysql_pools := s.mysql_pools.insert config.id p }, Except.ok ())

/-- Model of `ConnectionManager::connect_sqlite` (`connection_manager.rs`): requires
`config.database` (the file path); no tunnel is ever built. -/
def connect_sqlite (s : ManagerState) (config : ConnectionConfig)
    (env : ConnectEnv) : ManagerState × Except String Unit :=
  match config.database with
  | none => (s, Except.error "Path required for SQLite")
  | some _ =>
      match env.pool with
      | Except.error e => (s, Except.error e)
      | Except.ok p =>
          ({ s with sqlite_pools := s.sqlite_pools.insert config.id p }, Except.ok ())

/-- The `match new_config.db_type` dispatch inside
`ConnectionManager::switch_database` (`connection_manager.rs`): re-run the
dialect `connect_*` with the database name overridden, SQLite rejected
outright. -/
def switchAttempt (s : ManagerState) (newConfig : ConnectionConfig)
    (env : ConnectEnv) : ManagerState × Except String Unit :=
  match newConfig.db_type with
  | DatabaseType.postgres => connect_postgres s newConfig env
  | DatabaseType.mysql => connect_mysql s newConfig env
  | DatabaseType.sqlite =>
      (s, Except.error
        "SQLite does not support switching databases within the same file connection.")

/-- Model of `ConnectionManager::switch_database` (`connection_manager.rs`): fetch
the stored config and password, override `database`, re-run the dialect
`connect_*` (`switchAttempt`); only on success overwrite the stored config
and password. -/
def switch_database (s : ManagerState) (id : Nat) (dbName : String)
    (env : ConnectEnv) : ManagerState × Except String Unit :=
  match s.configs.lookup id with
  | none => (s, Except.error "Connection config not found")
  | some config =>
      let password := (s.passwords.lookup id).join
      let newConfig := { config with database := some dbName }
      let p := switchAttempt s newConfig env
      match p.2 with
      | Except.ok _ =>
          ({ p.1 with configs := p.1.configs.insert id newConfig,
                      passwords := p.1.passwords.insert id password }, p.2)
      | Except.error _ => p

/-- Model of `ConnectionManager::disconnect` (`connection_manager.rs`), including its
early returns: config and password are always removed; then the Postgres
pool registry is tried and, when it held the id, the function returns `Ok`
at once; likewise MySQL; only when neither held the id are the SQLite pool
and the tunnel entry removed (the latter aborting the forwarder).  The Rust
function returns `Ok(())` on every path. -/
def disconnect (s : ManagerState) (id : Nat) : ManagerState × Except String Unit :=
  let s := { s with configs := s.configs.remove id }
  let s := { s with passwords := s.passwords.remove id }
  if (s.postgres_pools.lookup id).isSome then
    ({ s with postgres_pools := s.postgres_pools.remove id }, Except.ok ())
  else if (s.mysql_pools.lookup id).isSome then
    ({ s with mysql_pools := s.mysql_pools.remove id }, Except.ok ())
  else
    let s := { s with sqlite_pools := s.sqlite_pools.remove id }
    ({ s with tunnels := s.tunnels.remove id }, Except.ok ())

/-- Model of `QueryResult` from `core/mod.rs`.  Field `execution_time_ms` is wall-clock time
and is not modelled. -/
structure QueryResultM where
  columns : List Str
  rows : List (List JValue)
  affected_rows : Nat
  total_count : Option JsonNum
  page : Option Nat
  page_size : Option Nat
deriving Repr

/-- The body `QueryEngine::execute_query` runs once a pool is resolved
(`query_engine.rs`): the best-effort `COUNT(*)` probe when `page` is set
(a fetch error merely leaves `total_count` unset), then `fetch_all` on the
(possibly rewritten) SQL, columns from the first row, and the per-dialect
row mapping.  Returns the result and the SQL statements sent to the pool,
in order. -/
def runPoolQuery (db : Db) (cell : RawValue → JValue) (sql finalSql : Str)
    (page pageSize : Option Nat) : Except String QueryResultM × List Str :=
  let countStep : Option JsonNum × List Str :=
    if page.isSome then
      let c := wrap_count sql
      if c.isEmpty then (none, [])
      else
        match db.fetch_one c with
        | Except.ok row => ((row.vals.head?).bind RawValue.asI64, [c])
        | Except.error _ => (none, [c])
    else (none, [])
  match db.fetch_all finalSql with
  | Except.error e => (Except.error e, countStep.2 ++ [finalSql])
  | Except.ok rows =>
      let columns := match rows.head? with
        | some first => first.cols
        | none => []
      (Except.ok
        { columns := columns,
          rows := rows.map (mapRow cell),
          affected_rows := 0,
          total_count := countStep.1,
          page := page,
          page_size := pageSize },
       countStep.2 ++ [finalSql])

/-- Model of `QueryEngine::execute_query` (`query_engine.rs`): rewrite the SQL when
`page` and `page_size` are both set with `page_size > 0` (the `page * page_size`
offset is u32 arithmetic and wraps), then try the Postgres, MySQL and SQLite
registries in that order; a miss in all three is `Connection not found`.
Also returns the SQL statements sent to the resolved pool. -/
def executeQuery (m : ManagerState) (id : Nat) (sql : Str)
    (page pageSize : Option Nat) : Except String QueryResultM × List Str :=
  let finalSql :=
    match page, pageSize with
    | some p, some ps => if 0 < ps then wrap_pagination sql ps ((p * ps) % 2 ^ 32) else sql
    | _, _ => sql
  match m.postgres_pools.lookup id with
  | some db => runPoolQuery db postgresMapCell sql finalSql page pageSize
  | none =>
    match m.mysql_pools.lookup id with
    | some db => runPoolQuery db mysqlMapCell sql finalSql page pageSize
    | none =>
      match m.sqlite_pools.lookup id with
      | some db => runPoolQuery db sqliteMapCell sql finalSql page pageSize
      | none => (Except.error "Connection not found", [])

/-- Model of `QueryEngine::get_table_data` (`query_engine.rs`): resolve the dialect
by probing the three pool registries, compose
`SELECT * FROM <quoted table> <where> <order> LIMIT <l> OFFSET <o>;` with
the dialect quoting, and delegate to `execute_query` with no pagination. -/
def getTableData (m : ManagerState) (id : Nat) (tableName : Str)
    (limit offset : Nat) (filters : List FilterConfig)
    (sortColumn sortDirection : Option Str) :
    Except String QueryResultM × List Str :=
  if m.postgres_pools.contains id then
    let whereClause := build_where_clause filters "postgres"
    let orderClause := build_order_clause sortColumn sortDirection "postgres"
    let sql := "SELECT * FROM ".toList ++ [dqC] ++ replaceChar dqC [dqC, dqC] tableName
      ++ [dqC] ++ " ".toList ++ whereClause ++ " ".toList ++ orderClause
      ++ " LIMIT ".toList ++ natStr limit ++ " OFFSET ".toList ++ natStr offset ++ [semiC]
    executeQuery m id sql none none
  else if m.mysql_pools.contains id then
    let whereClause := build_where_clause filters "mysql"
    let orderClause := build_order_clause sortColumn sortDirection "mysql"
    let sql := "SELECT * FROM ".toList ++ [btC] ++ replaceChar btC [btC, btC] tableName
      ++ [btC] ++ " ".toList ++ whereClause ++ " ".toList ++ orderClause
      ++ " LIMIT ".toList ++ natStr limit ++ " OFFSET ".toList ++ natStr offset ++ [semiC]
    executeQuery m id sql none none
  else if m.sqlite_pools.contains id then
    let whereClause := build_where_clause filters "sqlite"
    let orderClause := build_order_clause sortColumn sortDirection "sqlite"
    let sql := "SELECT * FROM ".toList ++ [dqC] ++ replaceChar dqC [dqC, dqC] tableName
      ++ [dqC] ++ " ".toList ++ whereClause ++ " ".toList ++ orderClause
      ++ " LIMIT ".toList ++ natStr limit ++ " OFFSET ".toList ++ natStr offset ++ [semiC]
    executeQuery m id sql none none
  else
    (Except.error "Connection not found", [])

/-! ## Concrete fixtures used by counterexamples and witnesses -/

/-- A pool oracle whose queries all succeed with an empty result set. -/
def dbStub : Db :=
  { fetch_all := fun _ => Except.ok [],
    fetch_one := fun _ => Except.ok { cols := [], vals := [] } }

/-- A registry holding a single Postgres connection under id 0. -/
def mPG : ManagerState :=
  { postgres_pools := [(0, dbStub)], mysql_pools := [], sqlite_pools := [],
    configs := [], passwords := [], tunnels := [] }

/-- An SSH-enabled Postgres config under id 7 (the combination for which
`disconnect` leaks the tunnel). -/
def cfgBug : ConnectionConfig :=
  { id := 7, name := "prod", db_type := DatabaseType.postgres,
    host := some "10.0.0.5", port := some 5432, username := some "app",
    database := some "appdb", ssh_enabled := true }

/-- The tunnel record the registry holds for id 7. -/
def tunBug : SshTunnel := { local_port := 5433 }

/-- Registry state after a successful SSH-enabled Postgres `connect` for
id 7: config, password, Postgres pool and tunnel all present. -/
def sBug : ManagerState :=
  { postgres_pools := [(7, dbStub)], mysql_pools := [], sqlite_pools := [],
    configs := [(7, cfgBug)], passwords := [(7, some "pw")],
    tunnels := [(7, tunBug)] }

/-- A non-null raw value declared `bool` whose boolean decoding fails. -/
def rBoolFail : RawValue := { isNull := false, typeName := "bool".toList, typeInfoFull := [] }

/-- A non-null raw value of an unrecognised type (`xml`) with no usable
string decoding. -/
def rXml : RawValue := { isNull := false, typeName := "xml".toList, typeInfoFull := [] }

/-- A non-SELECT statement with surrounding whitespace. -/
def sqlNonSelect : Str := "  DELETE FROM t  ".toList

/-- An enabled `IN` filter whose value contains a single quote. -/
def fIN : FilterConfig :=
  { id := [], column := "c".toList, operator := "IN".toList,
    value := "a".toList ++ [sqC] ++ "b".toList, enabled := true }

/-- The filter of the C7 scenario:
`{column: "email", operator: "Contains", value: "o'brien"}`, enabled. -/
def fEmail : FilterConfig :=
  { id := "f1".toList, column := "email".toList, operator := "Contains".toList,
    value := "o".toList ++ [sqC] ++ "brien".toList, enabled := true }

/-- The SQL text the claim says is executed (no trailing semicolon):
`SELECT * FROM "users" WHERE "email" LIKE '%o''brien%' ORDER BY "id" DESC
LIMIT 50 OFFSET 100`. -/
def c7ClaimSql : Str :=
  "SELECT * FROM \"users\" WHERE \"email\" LIKE ".toList
    ++ [sqC] ++ "%o".toList ++ [sqC, sqC] ++ "brien%".toList ++ [sqC]
    ++ " ORDER BY \"id\" DESC LIMIT 50 OFFSET 100".toList

/-- A registry holding one SQLite connection (id 5) for the C8 witness. -/
def sSq : ManagerState :=
  { postgres_pools := [], mysql_pools := [], sqlite_pools := [(5, dbStub)],
    configs := [(5, { id := 5, name := "local", db_type := DatabaseType.sqlite,
                      database := some "/tmp/a.db" })],
    passwords := [(5, none)], tunnels := [] }

/-- The two-row fixture used by the streaming witnesses. -/
def rowX : Row :=
  { cols := ["x".toList], vals := [{ isNull := true, typeName := [], typeInfoFull := [] }] }

/-- A two-row cursor. -/
def rowsW : List Row := [rowX, rowX]

/-! ## C1 -/

/-- C1 (code bug): for a connection whose record holds a Postgres pool and
an SSH tunnel, `disconnect(id)` returns `Ok` and removes config, password
and pool — but the early `return Ok(())` taken as soon as the Postgres pool
map held the id skips the tunnel block, so the tunnels map still contains
the id (and the forwarder is never aborted), contradicting the claim that
after `disconnect` none of the registry maps contains the id. -/
theorem c1_disconnect_leaves_tunnel_for_postgres_record :
    (disconnect sBug 7).2 = Except.ok () ∧
    AssocMap.lookup 7 (disconnect sBug 7).1.configs = none ∧
    AssocMap.lookup 7 (disconnect sBug 7).1.passwords = none ∧
    AssocMap.lookup 7 (disconnect sBug 7).1.postgres_pools = none ∧
    AssocMap.lookup 7 (disconnect sBug 7).1.tunnels = some tunBug :=
  ⟨rfl, rfl, rfl, rfl, rfl⟩

/-! ## C10 -/

/-- On the success path `runPoolQuery` always builds its result record with
`affected_rows := 0`. -/
theorem runPoolQuery_ok_affected (db : Db) (cell : RawValue → JValue)
    (sql finalSql : Str) (page pageSize : Option Nat) (res : QueryResultM)
    (trace : List Str)
    (h : runPoolQuery db cell sql finalSql page pageSize = (Except.ok res, trace)) :
    res.affected_rows = 0 := by
  unfold runPoolQuery at h
  cases hfa : db.fetch_all finalSql with
  | error e => simp [hfa] at h
  | ok rows =>
      simp only [hfa, Prod.mk.injEq, Except.ok.injEq] at h
      obtain ⟨h1, -⟩ := h
      rw [← h1]

/-- C10: whenever `execute_query` returns `Ok` — for any dialect, any SQL
(including non-SELECT pass-through) and any pagination — the returned
`QueryResult` carries `affected_rows = 0`, since all three dialect branches
construct the result with the literal `affected_rows: 0`. -/
theorem c10_execute_query_affected_rows_zero (m : ManagerState) (id : Nat)
    (sql : Str) (page pageSize : Option Nat) (res : QueryResultM) (trace : List Str)
    (h : executeQuery m id sql page pageSize = (Except.ok res, trace)) :
    res.affected_rows = 0 := by
  unfold executeQuery at h
  cases hpg : AssocMap.lookup id m.postgres_pools with
  | some db =>
      rw [hpg] at h
      exact runPoolQuery_ok_affected db postgresMapCell sql _ page pageSize res trace h
  | none =>
      rw [hpg] at h
      cases hmy : AssocMap.lookup id m.mysql_pools with
      | some db =>
          rw [hmy] at h
          exact runPoolQuery_ok_affected db mysqlMapCell sql _ page pageSize res trace h
      | none =>
          rw [hmy] at h
          cases hsq : AssocMap.lookup id m.sqlite_pools with
          | some db =>
              rw [hsq] at h
              exact runPoolQuery_ok_affected db sqliteMapCell sql _ page pageSize res trace h
          | none =>
              rw [hsq] at h
              simp only [Prod.mk.injEq] at h
              exact absurd h.1 (by simp)

/-- Witness for C10 at a concrete registry and query. -/
theorem c10_execute_query_affected_rows_zero_witness :
    QueryResultM.affected_rows
      { columns := [], rows := [], affected_rows := 0, total_count := none,
        page := none, page_size := none } = 0 :=
  c10_execute_query_affected_rows_zero mPG 0 "SELECT 1".toList none none
    _ ["SELECT 1".toList] rfl

/-! ## C9 -/

/-- C9 counterexample: a non-null raw value in the boolean branch whose
typed decoding fails is mapped to JSON `null`, not to a string describing
the type — the `else { Value::Null }` of the `bool` branch in
`postgres_row_to_values!` — refuting "the emitted JSON value is a string
describing the type (never anything else)". -/
theorem c9_counterexample_bool_decode_failure_null :
    rBoolFail.isNull = false ∧ postgresMapCell rBoolFail = JValue.null :=
  ⟨rfl, rfl⟩

/-- C9 (amended): every per-dialect mapper is total (it is a function into
JSON scalars, never an error) and emits exactly one scalar per column of
the row; a non-null value matching none of the typed branches degrades to
the descriptive string `Binary/Complex (<type>)` when even the string
decoding fails; but inside the boolean branch a failed decoding degrades
to JSON `null` rather than a descriptive string. -/
theorem c9_mapper_total_with_null_degradation :
    (∀ (cell : RawValue → JValue) (row : Row), (mapRow cell row).length = row.vals.length)
  ∧ (∀ r : RawValue, r.isNull = false →
      isBoolTypePG (rustToLower r.typeName) = false →
      isUuidType (rustToLower r.typeName) = false →
      isIntTypeName (rustToLower r.typeName) = false →
      isFloatTypeName (rustToLower r.typeName) = false →
      type_name_is_text (rustToLower r.typeName) = false →
      isTimeTypePG (rustToLower r.typeName) = false →
      isByteaType (rustToLower r.typeName) = false →
      r.asString = none →
      postgresMapCell r = JValue.str ("Binary/Complex (".toList ++ rustToLower r.typeName ++ ")".toList))
  ∧ (∀ r : RawValue, r.isNull = false →
      isTinyint1My (rustToLower r.typeName) r.typeInfoFull = false →
      isIntTypeName (rustToLower r.typeName) = false →
      isFloatTypeName (rustToLower r.typeName) = false →
      type_name_is_text (rustToLower r.typeName) = false →
      isTimeTypeMy (rustToLower r.typeName) = false →
      isBinTypeMy (rustToLower r.typeName) = false →
      r.asString = none →
      mysqlMapCell r = JValue.str ("Binary/Complex (".toList ++ rustToLower r.typeName ++ ")".toList))
  ∧ (∀ r : RawValue, r.isNull = false →
      isBoolTypeSq (rustToLower r.typeName) = false →
      isIntTypeSq (rustToLower r.typeName) = false →
      isFloatTypeSq (rustToLower r.typeName) = false →
      type_name_is_text (rustToLower r.typeName) = false →
      isBlobTypeSq (rustToLower r.typeName) = false →
      r.asString = none →
      sqliteMapCell r = JValue.str ("Binary/Complex (".toList ++ rustToLower r.typeName ++ ")".toList))
  ∧ (∀ r : RawValue, r.isNull = false →
      isBoolTypePG (rustToLower r.typeName) = true →
      r.asBool = none →
      postgresMapCell r = JValue.null) := by
  refine ⟨?_, ?_, ?_, ?_, ?_⟩
  · intro cell row
    simp [mapRow]
  · intro r h0 h1 h2 h3 h4 h5 h6 h7 h8
    simp [postgresMapCell, h0, h1, h2, h3, h4, h5, h6, h7, h8]
  · intro r h0 h1 h2 h3 h4 h5 h6 h7
    simp [mysqlMapCell, h0, h1, h2, h3, h4, h5, h6, h7]
  · intro r h0 h1 h2 h3 h4 h5 h6
    simp [sqliteMapCell, h0, h1, h2, h3, h4, h5, h6]
  · intro r h0 h1 h2
    simp [postgresMapCell, h0, h1, h2]

/-- Witness for C9 (amended) at concrete raw values: the `xml` value falls
to the descriptive-string fallback and the failed `bool` decoding falls to
JSON null. -/
theorem c9_mapper_total_with_null_degradation_witness :
    postgresMapCell rXml
        = JValue.str ("Binary/Complex (".toList ++ rustToLower rXml.typeName ++ ")".toList)
      ∧ postgresMapCell rBoolFail = JValue.null :=
  ⟨c9_mapper_total_with_null_degradation.2.1 rXml rfl (by decide) (by decide)
      (by decide) (by decide) (by decide) (by decide) (by decide) rfl,
   c9_mapper_total_with_null_degradation.2.2.2.2 rBoolFail rfl (by decide) rfl⟩

/-! ## C3 counterexample -/

/-- C3 counterexample: a successful, uncancelled, error-free streaming run
over an empty result set emits `query-complete` but no `query-metadata` at
all (the metadata emission is guarded by `columns_sent` inside the row
loop, which never executes), refuting "exactly one query-metadata event is
emitted … including one whose result set is empty". -/
theorem c3_counterexample_empty_result_no_metadata :
    streamRun postgresMapCell [] none = ([SEvent.complete 0], Except.ok ())
      ∧ metaLists (streamRun postgresMapCell [] none).1 = [] :=
  ⟨rfl, rfl⟩

/-! ## C5 counterexample -/

/-- C5 counterexample: with `page = 0`, `page_size = 10` and a non-SELECT
statement carrying surrounding whitespace, `execute_query` does not pass
the SQL through unmodified — `wrap_pagination` returns the *trimmed*
statement (`trimmed.to_string()`), so the executed text differs from the
input. -/
theorem c5_counterexample_nonselect_trimmed :
    (executeQuery mPG 0 sqlNonSelect (some 0) (some 10)).2 = ["DELETE FROM t".toList]
      ∧ ("DELETE FROM t".toList : Str) ≠ sqlNonSelect :=
  ⟨rfl, by decide⟩

/-! ## C6 counterexample -/

/-- C6 counterexample: for the enabled `IN` filter with value `a'b`, the
builder inserts the value verbatim inside the parentheses — the emitted
clause is `WHERE "c" IN (a'b)` and the single-quoted, quote-doubled literal
`'a''b'` appears nowhere in it — refuting "for any value v of any enabled
filter (whatever its operator), the value appears … as a single-quoted
literal in which every single-quote character of v is doubled". -/
theorem c6_counterexample_in_operator_verbatim :
    build_where_clause [fIN] "postgres"
        = "WHERE ".toList ++ [dqC] ++ "c".toList ++ [dqC]
            ++ " IN (a".toList ++ [sqC] ++ "b)".toList
      ∧ strContains (build_where_clause [fIN] "postgres")
          ([sqC] ++ escapeQuotes fIN.value ++ [sqC]) = false :=
  ⟨by decide, by decide⟩

/-! ## C7 -/

/-- C7 counterexample: the statement `get_table_data` actually executes is
not exactly the claimed string — the `format!` in `get_table_data` appends
a trailing semicolon. -/
theorem c7_counterexample_trailing_semicolon :
    (getTableData mPG 0 "users".toList 50 100 [fEmail]
        (some "id".toList) (some "DESC".toList)).2 ≠ [c7ClaimSql] := by
  decide

/-- C7 (amended): on a Postgres connection, `get_table_data("users", 50,
100, [email Contains o'brien], sort ("id","DESC"))` executes exactly the
claimed SQL string with a trailing semicolon appended:
`SELECT * FROM "users" WHERE "email" LIKE '%o''brien%' ORDER BY "id" DESC
LIMIT 50 OFFSET 100;`. -/
theorem c7_get_table_data_sql_amended :
    (getTableData mPG 0 "users".toList 50 100 [fEmail]
        (some "id".toList) (some "DESC".toList)).2 = [c7ClaimSql ++ [semiC]] := by
  decide

/-! ## C8 -/

/-- On every path, `connect_postgres` leaves configs, passwords and the
MySQL/SQLite pool registries untouched; and on every *error* path it also
leaves the Postgres pool registry untouched (only the tunnel registry may
already have been replaced, which the claim does not cover). -/
theorem connect_postgres_error_preserves (s : ManagerState)
    (cfg : ConnectionConfig) (env : ConnectEnv) :
    (connect_postgres s cfg env).1.configs = s.configs
    ∧ (connect_postgres s cfg env).1.passwords = s.passwords
    ∧ (connect_postgres s cfg env).1.mysql_pools = s.mysql_pools
    ∧ (connect_postgres s cfg env).1.sqlite_pools = s.sqlite_pools
    ∧ (∀ e, (connect_postgres s cfg env).2 = Except.error e →
        (connect_postgres s cfg env).1.postgres_pools = s.postgres_pools) := by
  unfold connect_postgres
  by_cases hssh : cfg.ssh_enabled = true
  · rw [if_pos hssh]
    cases env.tunnel with
    | error e => exact ⟨rfl, rfl, rfl, rfl, fun _ _ => rfl⟩
    | ok t =>
        cases env.pool with
        | error e => exact ⟨rfl, rfl, rfl, rfl, fun _ _ => rfl⟩
        | ok p => exact ⟨rfl, rfl, rfl, rfl, fun e he => absurd he (by simp)⟩
  · rw [if_neg hssh]
    cases env.pool with
    | error e => exact ⟨rfl, rfl, rfl, rfl, fun _ _ => rfl⟩
    | ok p => exact ⟨rfl, rfl, rfl, rfl, fun e he => absurd he (by simp)⟩

/-- Mirror of `connect_postgres_error_preserves` for the MySQL variant. -/
theorem connect_mysql_error_preserves (s : ManagerState)
    (cfg : ConnectionConfig) (env : ConnectEnv) :
    (connect_mysql s cfg env).1.configs = s.configs
    ∧ (connect_mysql s cfg env).1.passwords = s.passwords
    ∧ (connect_mysql s cfg env).1.postgres_pools = s.postgres_pools
    ∧ (connect_mysql s cfg env).1.sqlite_pools = s.sqlite_pools
    ∧ (∀ e, (connect_mysql s cfg env).2 = Except.error e →
        (connect_mysql s cfg env).1.mysql_pools = s.mysql_pools) := by
  unfold connect_mysql
  by_cases hssh : cfg.ssh_enabled = true
  · rw [if_pos hssh]
    cases env.tunnel with
    | error e => exact ⟨rfl, rfl, rfl, rfl, fun _ _ => rfl⟩
    | ok t =>
        cases env.pool with
        | error e => exact ⟨rfl, rfl, rfl, rfl, fun _ _ => rfl⟩
        | ok p => exact ⟨rfl, rfl, rfl, rfl, fun e he => absurd he (by simp)⟩
  · rw [if_neg hssh]
    cases env.pool with
    | error e => exact ⟨rfl, rfl, rfl, rfl, fun _ _ => rfl⟩
    | ok p => exact ⟨rfl, rfl, rfl, rfl, fun e he => absurd he (by simp)⟩

/-- Unfolding of `switch_database` once the stored config is resolved. -/
theorem switch_database_lookup_some {s : ManagerState} {id : Nat}
    {cfg : ConnectionConfig} (dbName : String) (env : ConnectEnv)
    (h : AssocMap.lookup id s.configs = some cfg) :
    switch_database s id dbName env =
      match (switchAttempt s { cfg with database := some dbName } env).2 with
      | Except.ok _ =>
          ({ (switchAttempt s { cfg with database := some dbName } env).1 with
              configs := AssocMap.insert id { cfg with database := some dbName }
                (switchAttempt s { cfg with database := some dbName } env).1.configs,
              passwords := AssocMap.insert id ((AssocMap.lookup id s.passwords).join)
                (switchAttempt s { cfg with database := some dbName } env).1.passwords },
           (switchAttempt s { cfg with database := some dbName } env).2)
      | Except.error _ => switchAttempt s { cfg with database := some dbName } env := by
  unfold switch_database
  rw [h]

/-- On every error path, `switchAttempt` leaves configs, passwords and all
three pool registries untouched (only the tunnel registry may already have
been replaced). -/
theorem switchAttempt_error_preserves (s : ManagerState)
    (cfg : ConnectionConfig) (env : ConnectEnv) :
    ∀ e, (switchAttempt s cfg env).2 = Except.error e →
      (switchAttempt s cfg env).1.configs = s.configs
      ∧ (switchAttempt s cfg env).1.passwords = s.passwords
      ∧ (switchAttempt s cfg env).1.postgres_pools = s.postgres_pools
      ∧ (switchAttempt s cfg env).1.mysql_pools = s.mysql_pools
      ∧ (switchAttempt s cfg env).1.sqlite_pools = s.sqlite_pools := by
  intro e he
  unfold switchAttempt at he ⊢
  cases hdt : cfg.db_type with
  | postgres =>
      rw [hdt] at he
      obtain ⟨h1, h2, h3, h4, h5⟩ := connect_postgres_error_preserves s cfg env
      exact ⟨h1, h2, h5 e he, h3, h4⟩
  | mysql =>
      rw [hdt] at he
      obtain ⟨h1, h2, h3, h4, h5⟩ := connect_mysql_error_preserves s cfg env
      exact ⟨h1, h2, h3, h5 e he, h4⟩
  | sqlite => exact ⟨rfl, rfl, rfl, rfl, rfl⟩

/-- C8: for a stored SQLite config, `switch_database` fails for every new
database name; and whenever `switch_database` returns an error — whatever
the dialect and network outcome — the stored configs, passwords and all
three pool registries are exactly as before (config and password are
replaced only on success). -/
theorem c8_switch_database_sqlite_rejected_error_preserves
    (s : ManagerState) (id : Nat) (dbName : String) (env : ConnectEnv) :
    (∀ cfg, AssocMap.lookup id s.configs = some cfg →
      cfg.db_type = DatabaseType.sqlite →
      ∃ e, (switch_database s id dbName env).2 = Except.error e)
  ∧ (∀ e, (switch_database s id dbName env).2 = Except.error e →
      (switch_database s id dbName env).1.configs = s.configs
      ∧ (switch_database s id dbName env).1.passwords = s.passwords
      ∧ (switch_database s id dbName env).1.postgres_pools = s.postgres_pools
      ∧ (switch_database s id dbName env).1.mysql_pools = s.mysql_pools
      ∧ (switch_database s id dbName env).1.sqlite_pools = s.sqlite_pools) := by
  constructor
  · intro cfg hcfg hsq
    rw [switch_database_lookup_some dbName env hcfg]
    have hatt : (switchAttempt s { cfg with database := some dbName } env).2
        = Except.error
          "SQLite does not support switching databases within the same file connection." := by
      unfold switchAttempt
      simp only [hsq]
    rw [hatt]
    exact ⟨_, hatt⟩
  · intro e he
    cases hl : AssocMap.lookup id s.configs with
    | none =>
        have hn : switch_database s id dbName env
            = (s, Except.error "Connection config not found") := by
          unfold switch_database
          rw [hl]
        rw [hn]
        exact ⟨rfl, rfl, rfl, rfl, rfl⟩
    | some cfg =>
        rw [switch_database_lookup_some dbName env hl] at he ⊢
        cases hres : (switchAttempt s { cfg with database := some dbName } env).2 with
        | ok u => rw [hres] at he; simp at he
        | error e2 =>
            exact switchAttempt_error_preserves s
              { cfg with database := some dbName } env e2 hres

/-- Witness for C8: on the concrete SQLite registry, `switch_database`
errors and leaves every registry map untouched. -/
theorem c8_switch_database_sqlite_rejected_error_preserves_witness :
    (∃ e, (switch_database sSq 5 "other"
        { tunnel := Except.error "unused", pool := Except.ok dbStub }).2
          = Except.error e)
    ∧ (switch_database sSq 5 "other"
        { tunnel := Except.error "unused", pool := Except.ok dbStub }).1.configs
          = sSq.configs :=
  ⟨(c8_switch_database_sqlite_rejected_error_preserves sSq 5 "other"
      { tunnel := Except.error "unused", pool := Except.ok dbStub }).1
      _ rfl rfl,
   ((c8_switch_database_sqlite_rejected_error_preserves sSq 5 "other"
      { tunnel := Except.error "unused", pool := Except.ok dbStub }).2
      "SQLite does not support switching databases within the same file connection."
      rfl).1⟩

/-- Containment holds when the pattern is a prefix. -/
theorem strContains_of_isPrefixOf {pat s : Str} (h : pat.isPrefixOf s = true) :
    strContains s pat = true := by
  cases s with
  | nil =>
      cases pat with
      | nil => rfl
      | cons c t => simp [List.isPrefixOf] at h
  | cons c t => simp [strContains, h]

/-- A list is a prefix of itself followed by anything (`isPrefixOf` form). -/
theorem isPrefixOf_append_self (pat b : Str) : pat.isPrefixOf (pat ++ b) = true :=
  List.isPrefixOf_iff_prefix.2 ⟨b, rfl⟩

/-- Containment holds on any string that embeds the pattern between two
arbitrary pieces. -/
theorem strContains_append_middle (a pat b : Str) :
    strContains (a ++ (pat ++ b)) pat = true := by
  induction a with
  | nil => exact strContains_of_isPrefixOf (isPrefixOf_append_self pat b)
  | cons c a' ih => simp [strContains, ih]

/-- Filtering by `enabled` is idempotent. -/
theorem filter_enabled_idem (filters : List FilterConfig) :
    (filters.filter (fun f => f.enabled)).filter (fun f => f.enabled)
      = filters.filter (fun f => f.enabled) := by
  induction filters with
  | nil => rfl
  | cons f fs ih =>
      by_cases hf : f.enabled = true
      · simp [List.filter, hf, ih]
      · simp [List.filter, hf, ih]

/-- C6 (amended): disabled filters contribute nothing to the WHERE clause
(dropping them first yields the same clause); for every enabled filter whose
operator is not `IN`, `IS NULL` or `IS NOT NULL`, the value appears in the
condition with every single quote doubled, inside the condition's
single-quoted literal; the `IN` operator instead inserts the raw value
verbatim between parentheses (and the null-check operators ignore the value
entirely). -/
theorem c6_where_builder_escaping_amended :
    (∀ (filters : List FilterConfig) (dbType : String),
      build_where_clause (filters.filter (fun f => f.enabled)) dbType
        = build_where_clause filters dbType)
  ∧ (∀ (dbType : String) (f : FilterConfig),
      f.operator ≠ "IN".toList →
      f.operator ≠ "IS NULL".toList →
      f.operator ≠ "IS NOT NULL".toList →
      strContains (buildCondition dbType f) (escapeQuotes f.value) = true)
  ∧ (∀ (dbType : String) (f : FilterConfig),
      f.operator = "IN".toList →
      buildCondition dbType f
        = quoteCol dbType f.column ++ " IN (".toList ++ f.value ++ ")".toList) := by
  refine ⟨?_, ?_, ?_⟩
  · intro filters dbType
    cases filters with
    | nil => rfl
    | cons f fs =>
        unfold build_where_clause
        rw [filter_enabled_idem]
        by_cases hfe : (List.filter (fun g => g.enabled) (f :: fs)).isEmpty = true
        · have hnil : List.filter (fun g => g.enabled) (f :: fs) = [] := by
            simpa [List.isEmpty_iff] using hfe
          simp [hnil]
        · have hfe' : (List.filter (fun g => g.enabled) (f :: fs)).isEmpty = false := by
            simpa using hfe
          simp only [hfe', List.isEmpty_cons, Bool.false_eq_true, if_false]
  · intro dbType f hIN hNull hNotNull
    unfold buildCondition
    by_cases h1 : f.operator = "=".toList
    · rw [if_pos h1]
      simpa [List.append_assoc] using
        strContains_append_middle (quoteCol dbType f.column ++ " = ".toList ++ [sqC])
          (escapeQuotes f.value) [sqC]
    rw [if_neg h1]
    by_cases h2 : f.operator = "!=".toList
    · rw [if_pos h2]
      simpa [List.append_assoc] using
        strContains_append_middle (quoteCol dbType f.column ++ " != ".toList ++ [sqC])
          (escapeQuotes f.value) [sqC]
    rw [if_neg h2]
    by_cases h3 : f.operator = ">".toList
    · rw [if_pos h3]
      simpa [List.append_assoc] using
        strContains_append_middle (quoteCol dbType f.column ++ " > ".toList ++ [sqC])
          (escapeQuotes f.value) [sqC]
    rw [if_neg h3]
    by_cases h4 : f.operator = "<".toList
    · rw [if_pos h4]
      simpa [List.append_assoc] using
        strContains_append_middle (quoteCol dbType f.column ++ " < ".toList ++ [sqC])
          (escapeQuotes f.value) [sqC]
    rw [if_neg h4]
    by_cases h5 : f.operator = ">=".toList
    · rw [if_pos h5]
      simpa [List.append_assoc] using
        strContains_append_middle (quoteCol dbType f.column ++ " >= ".toList ++ [sqC])
          (escapeQuotes f.value) [sqC]
    rw [if_neg h5]
    by_cases h6 : f.operator = "<=".toList
    · rw [if_pos h6]
      simpa [List.append_assoc] using
        strContains_append_middle (quoteCol dbType f.column ++ " <= ".toList ++ [sqC])
          (escapeQuotes f.value) [sqC]
    rw [if_neg h6]
    by_cases h7 : f.operator = "Contains".toList ∨ f.operator = "LIKE".toList
    · have hb7 : (decide (f.operator = "Contains".toList)
          || decide (f.operator = "LIKE".toList)) = true := by simpa using h7
      rw [if_pos hb7]
      simpa [List.append_assoc] using
        strContains_append_middle
          (quoteCol dbType f.column ++ " LIKE ".toList ++ [sqC] ++ "%".toList)
          (escapeQuotes f.value) ("%".toList ++ [sqC])
    have hb7 : ¬((decide (f.operator = "Contains".toList)
        || decide (f.operator = "LIKE".toList)) = true) := by simpa using h7
    rw [if_neg hb7]
    by_cases h8 : f.operator = "Starts With".toList ∨ f.operator = "ILIKE".toList
    · have hb8 : (decide (f.operator = "Starts With".toList)
          || decide (f.operator = "ILIKE".toList)) = true := by simpa using h8
      rw [if_pos hb8]
      by_cases h8i : dbType = "postgres" ∧ f.operator = "ILIKE".toList
      · have hb8i : (decide (dbType = "postgres")
            && decide (f.operator = "ILIKE".toList)) = true := by simpa using h8i
        rw [if_pos hb8i]
        simpa [List.append_assoc] using
          strContains_append_middle (quoteCol dbType f.column ++ " ILIKE ".toList ++ [sqC])
            (escapeQuotes f.value) ("%".toList ++ [sqC])
      · have hb8i : ¬((decide (dbType = "postgres")
            && decide (f.operator = "ILIKE".toList)) = true) := by simpa using h8i
        rw [if_neg hb8i]
        simpa [List.append_assoc] using
          strContains_append_middle (quoteCol dbType f.column ++ " LIKE ".toList ++ [sqC])
            (escapeQuotes f.value) ("%".toList ++ [sqC])
    have hb8 : ¬((decide (f.operator = "Starts With".toList)
        || decide (f.operator = "ILIKE".toList)) = true) := by simpa using h8
    rw [if_neg hb8]
    by_cases h9 : f.operator = "Ends With".toList
    · rw [if_pos h9]
      simpa [List.append_assoc] using
        strContains_append_middle
          (quoteCol dbType f.column ++ " LIKE ".toList ++ [sqC] ++ "%".toList)
          (escapeQuotes f.value) [sqC]
    rw [if_neg h9]
    rw [if_neg hIN]
    rw [if_neg hNull]
    rw [if_neg hNotNull]
    simpa [List.append_assoc] using
      strContains_append_middle (quoteCol dbType f.column ++ " = ".toList ++ [sqC])
        (escapeQuotes f.value) [sqC]
  · intro dbType f hf
    unfold buildCondition
    simp [hf]

/-- Witness for C6 (amended) at a concrete enabled `Contains` filter and a
concrete `IN` filter. -/
theorem c6_where_builder_escaping_amended_witness :
    strContains (buildCondition "postgres" fEmail) (escapeQuotes fEmail.value) = true
    ∧ buildCondition "postgres" fIN
        = quoteCol "postgres" fIN.column ++ " IN (".toList ++ fIN.value ++ ")".toList :=
  ⟨c6_where_builder_escaping_amended.2.1 "postgres" fEmail
      (by decide) (by decide) (by decide),
   c6_where_builder_escaping_amended.2.2 "postgres" fIN rfl⟩

/-! ## C5 -/

/-- The SQL statements `runPoolQuery` sends to the pool: the `COUNT(*)`
probe when `page` is set and the probe SQL is nonempty, then the final
statement — independently of what the database answers. -/
theorem runPoolQuery_trace (db : Db) (cell : RawValue → JValue)
    (sql finalSql : Str) (page pageSize : Option Nat) :
    (runPoolQuery db cell sql finalSql page pageSize).2 =
      (if page.isSome then
        (if (wrap_count sql).isEmpty then [] else [wrap_count sql])
       else []) ++ [finalSql] := by
  unfold runPoolQuery
  cases hps : page.isSome <;>
    by_cases hce : (wrap_count sql).isEmpty = true <;>
      cases hfa : db.fetch_all finalSql <;>
        cases hfo : db.fetch_one (wrap_count sql) <;>
          simp [hps, hce, hfa, hfo]

/-- C5 (amended): on a resolved Postgres pool with `page` and `page_size`
both set — and writing `trimmed` for the whitespace-trimmed SQL — if
`page_size > 0` and `trimmed` begins with SELECT (case-insensitively) the
engine runs the `COUNT(*)` probe and then
`SELECT * FROM (<trimmed, all trailing ';' removed>) AS __sqlmate_q LIMIT
page_size OFFSET page*page_size` (u32 product); if `page_size > 0` and
`trimmed` does not begin with SELECT, the engine runs `trimmed` itself —
the *trimmed* text, not the original SQL; if `page_size = 0` the SQL is
passed through unmodified (still preceded by the `COUNT(*)` probe when the
trimmed SQL begins with SELECT, because `page` is set). -/
theorem c5_execute_query_pagination_sql_amended
    (m : ManagerState) (id : Nat) (db : Db) (sql : Str) (p ps : Nat)
    (hdb : AssocMap.lookup id m.postgres_pools = some db) :
    (0 < ps →
      (executeQuery m id sql (some p) (some ps)).2 =
        (if strStartsWith (rustToUpper (rustTrim sql)) "SELECT".toList then
          ["SELECT COUNT(*) FROM (".toList ++ trimEndSemis (rustTrim sql)
              ++ ") AS __sqlmate_count_q".toList,
           "SELECT * FROM (".toList ++ trimEndSemis (rustTrim sql)
              ++ ") AS __sqlmate_q LIMIT ".toList ++ natStr ps ++ " OFFSET ".toList
              ++ natStr ((p * ps) % 2 ^ 32)]
         else [rustTrim sql]))
  ∧ (ps = 0 →
      (executeQuery m id sql (some p) (some ps)).2 =
        (if strStartsWith (rustToUpper (rustTrim sql)) "SELECT".toList then
          ["SELECT COUNT(*) FROM (".toList ++ trimEndSemis (rustTrim sql)
              ++ ") AS __sqlmate_count_q".toList, sql]
         else [sql])) := by
  constructor
  · intro hps
    unfold executeQuery
    simp only [hdb]
    rw [if_pos hps, runPoolQuery_trace]
    simp only [Option.isSome_some, if_true]
    by_cases hsel : strStartsWith (rustToUpper (rustTrim sql)) "SELECT".toList = true
    · have hw : wrap_count sql = "SELECT COUNT(*) FROM (".toList
          ++ trimEndSemis (rustTrim sql) ++ ") AS __sqlmate_count_q".toList := by
        unfold wrap_count
        rw [if_pos hsel]
      have hwp : wrap_pagination sql ps ((p * ps) % 2 ^ 32)
          = "SELECT * FROM (".toList ++ trimEndSemis (rustTrim sql)
              ++ ") AS __sqlmate_q LIMIT ".toList ++ natStr ps ++ " OFFSET ".toList
              ++ natStr ((p * ps) % 2 ^ 32) := by
        unfold wrap_pagination
        rw [if_pos hsel]
      have hwne : (wrap_count sql).isEmpty = false := by rw [hw]; rfl
      rw [if_pos hsel, hw, hwp]
      simp [hwne, hw]
    · have hw : wrap_count sql = [] := by
        unfold wrap_count
        rw [if_neg hsel]
      have hwp : wrap_pagination sql ps ((p * ps) % 2 ^ 32) = rustTrim sql := by
        unfold wrap_pagination
        rw [if_neg hsel]
      rw [if_neg hsel, hw, hwp]
      simp
  · intro hps0
    subst hps0
    unfold executeQuery
    simp only [hdb]
    rw [if_neg (by omega), runPoolQuery_trace]
    simp only [Option.isSome_some, if_true]
    by_cases hsel : strStartsWith (rustToUpper (rustTrim sql)) "SELECT".toList = true
    · have hw : wrap_count sql = "SELECT COUNT(*) FROM (".toList
          ++ trimEndSemis (rustTrim sql) ++ ") AS __sqlmate_count_q".toList := by
        unfold wrap_count
        rw [if_pos hsel]
      have hwne : (wrap_count sql).isEmpty = false := by rw [hw]; rfl
      rw [if_pos hsel, hw]
      simp [hwne, hw]
    · have hw : wrap_count sql = [] := by
        unfold wrap_count
        rw [if_neg hsel]
      rw [if_neg hsel, hw]
      simp

/-- Witness for C5 (amended) at the concrete registry `mPG` and both a
SELECT and a non-SELECT statement. -/
theorem c5_execute_query_pagination_sql_amended_witness :
    (executeQuery mPG 0 " SELECT 1;; ".toList (some 2) (some 10)).2 =
      (if strStartsWith (rustToUpper (rustTrim " SELECT 1;; ".toList)) "SELECT".toList then
        ["SELECT COUNT(*) FROM (".toList ++ trimEndSemis (rustTrim " SELECT 1;; ".toList)
            ++ ") AS __sqlmate_count_q".toList,
         "SELECT * FROM (".toList ++ trimEndSemis (rustTrim " SELECT 1;; ".toList)
            ++ ") AS __sqlmate_q LIMIT ".toList ++ natStr 10 ++ " OFFSET ".toList
            ++ natStr ((2 * 10) % 2 ^ 32)]
       else [rustTrim " SELECT 1;; ".toList]) :=
  (c5_execute_query_pagination_sql_amended mPG 0 dbStub " SELECT 1;; ".toList 2 10 rfl).1
    (by decide)

/-! ## Streaming trace helpers -/

/-- The completion totals distribute over append. -/
theorem completeTotals_append (a b : List SEvent) :
    completeTotals (a ++ b) = completeTotals a ++ completeTotals b := by
  simp [completeTotals]

/-- A pure batch train contributes no `query-complete` events. -/
theorem completeTotals_batch_map (bs : List (List (List JValue))) :
    completeTotals (bs.map SEvent.batch) = [] := by
  induction bs with
  | nil => rfl
  | cons b bs ih => simp [completeTotals]

/-- The batches of a pure batch train are the batches themselves. -/
theorem batchLists_batch_map (bs : List (List (List JValue))) :
    batchLists (bs.map SEvent.batch) = bs := by
  induction bs with
  | nil => rfl
  | cons b bs ih => simpa [batchLists] using ih

/-- A pure batch train contributes no `query-metadata` events. -/
theorem metaLists_batch_map (bs : List (List (List JValue))) :
    metaLists (bs.map SEvent.batch) = [] := by
  induction bs with
  | nil => rfl
  | cons b bs ih => simp [metaLists]

/-- Master lemma for the steady state of the streaming loop (metadata
already sent): over an error-free cursor whose cancellation latch never
fires, the remaining run emits a train of batches followed by exactly one
`query-complete` whose total counts every row, each emitted batch holds at
most 1000 rows, the emitted row count equals the pending batch plus the
remaining cursor rows, and all emitted rows keep their width. -/
theorem runAux_ok_no_cancel (cell : RawValue → JValue) (w : Nat) (c : Option Nat) :
    ∀ (rows : List Row) (i : Nat) (batch : List (List JValue)) (total : Nat),
    (∀ k, c = some k → i + rows.length ≤ k) →
    batch.length < 1000 →
    ∃ bs : List (List (List JValue)),
      runAux cell c (rows.map Except.ok) i batch total true
        = (bs.map SEvent.batch ++ [SEvent.complete (total + rows.length)], Except.ok ())
      ∧ (bs.map List.length).sum = batch.length + rows.length
      ∧ (∀ b ∈ bs, b.length ≤ 1000)
      ∧ ((∀ r ∈ batch, r.length = w) → (∀ row ∈ rows, row.vals.length = w) →
          ∀ b ∈ bs, ∀ r ∈ b, r.length = w) := by
  intro rows
  induction rows with
  | nil =>
      intro i batch total hc hlen
      by_cases hb : batch = []
      · subst hb
        exact ⟨[], by simp [runAux], by simp, by simp, by simp⟩
      · have hbe : batch.isEmpty = false := by simpa [List.isEmpty_iff] using hb
        refine ⟨[batch], ?_, ?_, ?_, ?_⟩
        · simp [runAux, hbe]
        · simp
        · simpa using Nat.le_of_lt hlen
        · intro hbw _
          simpa using hbw
  | cons row rest ih =>
      intro i batch total hc hlen
      have hcan : isCancelled c i = false := by
        cases c with
        | none => rfl
        | some k =>
            have hik := hc k rfl
            simp only [List.length_cons] at hik
            simp only [isCancelled, decide_eq_false_iff_not]
            omega
      have hc' : ∀ k, c = some k → (i + 1) + rest.length ≤ k := by
        intro k hk
        have := hc k hk
        simp only [List.length_cons] at this
        omega
      by_cases hflush : 1000 ≤ (batch ++ [mapRow cell row]).length
      · obtain ⟨bs', heq, hsum, hle, hw'⟩ :=
          ih (i + 1) [] (total + 1) hc' (by simp)
        refine ⟨(batch ++ [mapRow cell row]) :: bs', ?_, ?_, ?_, ?_⟩
        · have htot : total + 1 + rest.length = total + (rest.length + 1) := by omega
          have hflush2 : 1000 ≤ batch.length + 1 := by simpa using hflush
          simp [runAux, hcan, hflush, hflush2, heq, htot]
        · simp only [List.length_append, List.length_cons, List.length_nil] at hsum
          simp only [List.map_cons, List.sum_cons, hsum, List.length_append,
            List.length_cons, List.length_nil]
          omega
        · intro b hb
          rcases List.mem_cons.1 hb with hb | hb
          · subst hb
            simp only [List.length_append, List.length_cons, List.length_nil]
            omega
          · exact hle b hb
        · intro hbw hrw
          have hwrow : (mapRow cell row).length = w := by
            simp only [mapRow, List.length_map]
            exact hrw row (List.mem_cons_self _ _)
          have hrw' : ∀ r ∈ rest, (Row.vals r).length = w := by
            intro r hr
            exact hrw r (List.mem_cons_of_mem _ hr)
          intro b hb r hr
          rcases List.mem_cons.1 hb with hb | hb
          · subst hb
            rcases List.mem_append.1 hr with hr | hr
            · exact hbw r hr
            · rw [List.mem_singleton.1 hr]
              exact hwrow
          · exact hw' (by simp) hrw' b hb r hr
      · have hlen' : (batch ++ [mapRow cell row]).length < 1000 := by omega
        obtain ⟨bs', heq, hsum, hle, hw'⟩ :=
          ih (i + 1) (batch ++ [mapRow cell row]) (total + 1) hc' hlen'
        refine ⟨bs', ?_, ?_, ?_, ?_⟩
        · have htot : total + 1 + rest.length = total + (rest.length + 1) := by omega
          have hflush2 : ¬(1000 ≤ batch.length + 1) := by simpa using hflush
          simp [runAux, hcan, hflush, hflush2, heq, htot]
        · simp only [List.length_append, List.length_cons, List.length_nil] at hsum
          simp only [hsum, List.length_cons]
          omega
        · exact hle
        · intro hbw hrw
          have hwrow : (mapRow cell row).length = w := by
            simp only [mapRow, List.length_map]
            exact hrw row (List.mem_cons_self _ _)
          have hrw' : ∀ r ∈ rest, (Row.vals r).length = w := by
            intro r hr
            exact hrw r (List.mem_cons_of_mem _ hr)
          have hbw' : ∀ r ∈ batch ++ [mapRow cell row], r.length = w := by
            intro r hr
            rcases List.mem_append.1 hr with hr | hr
            · exact hbw r hr
            · rw [List.mem_singleton.1 hr]
              exact hwrow
          exact hw' hbw' hrw'

/-- Full-run shape of a successful streaming execution: over an error-free
cursor whose cancellation latch never fires, the trace is (metadata unless
the result set is empty) , a train of batches, then exactly one
`query-complete` counting every row; batch sizes are bounded by 1000 and,
when every row has width `w`, so has every emitted row. -/
theorem streamRun_ok_spec (cell : RawValue → JValue) (w : Nat) (cols0 : List Str)
    (c : Option Nat) (rows : List Row)
    (hc : ∀ k, c = some k → rows.length ≤ k)
    (hcols : ∀ row ∈ rows, row.cols = cols0) :
    ∃ bs : List (List (List JValue)),
      streamRun cell (rows.map Except.ok) c
        = ((if rows.isEmpty then ([] : List SEvent) else [SEvent.metadata cols0])
            ++ bs.map SEvent.batch ++ [SEvent.complete rows.length], Except.ok ())
      ∧ (bs.map List.length).sum = rows.length
      ∧ (∀ b ∈ bs, b.length ≤ 1000)
      ∧ ((∀ row ∈ rows, row.vals.length = w) → ∀ b ∈ bs, ∀ r ∈ b, r.length = w) := by
  cases rows with
  | nil => exact ⟨[], by simp [streamRun, runAux], by simp, by simp, by simp⟩
  | cons row rest =>
      have hcan : isCancelled c 0 = false := by
        cases c with
        | none => rfl
        | some k =>
            have hk := hc k rfl
            simp only [List.length_cons] at hk
            simp only [isCancelled, decide_eq_false_iff_not]
            omega
      obtain ⟨bs, heq, hsum, hle, hw'⟩ :=
        runAux_ok_no_cancel cell w c rest 1 [mapRow cell row] 1
          (by
            intro k hk
            have := hc k hk
            simp only [List.length_cons] at this
            omega)
          (by simp)
      refine ⟨bs, ?_, ?_, hle, ?_⟩
      · have hcols0 : row.cols = cols0 := hcols row (List.mem_cons_self _ _)
        simp [streamRun, runAux, hcan, heq, hcols0, Nat.add_comm]
      · simp only [List.length_cons, List.length_nil] at hsum ⊢
        omega
      · intro hrw
        refine hw' ?_ ?_
        · intro r hr
          rw [List.mem_singleton.1 hr]
          simp only [mapRow, List.length_map]
          exact hrw row (List.mem_cons_self _ _)
        · intro r hr
          exact hrw r (List.mem_cons_of_mem _ hr)

/-- The batch lists distribute over append. -/
theorem batchLists_append (a b : List SEvent) :
    batchLists (a ++ b) = batchLists a ++ batchLists b := by
  simp [batchLists]

/-- The metadata lists distribute over append. -/
theorem metaLists_append (a b : List SEvent) :
    metaLists (a ++ b) = metaLists a ++ metaLists b := by
  simp [metaLists]

/-- Singleton-event values of the trace projections. -/
theorem batchLists_meta (cs : List Str) : batchLists [SEvent.metadata cs] = [] := rfl

/-- A lone `query-complete` contributes no batch. -/
theorem batchLists_complete (n : Nat) : batchLists [SEvent.complete n] = [] := rfl

/-- A lone `query-metadata` is its own metadata list. -/
theorem metaLists_meta (cs : List Str) : metaLists [SEvent.metadata cs] = [cs] := rfl

/-- A lone `query-complete` contributes no metadata. -/
theorem metaLists_complete (n : Nat) : metaLists [SEvent.complete n] = [] := rfl

/-- A lone `query-metadata` contributes no completion. -/
theorem completeTotals_meta (cs : List Str) : completeTotals [SEvent.metadata cs] = [] := rfl

/-- A lone `query-complete` is its own totals list. -/
theorem completeTotals_complete (n : Nat) : completeTotals [SEvent.complete n] = [n] := rfl

/-- A leading `query-metadata` contributes no batch. -/
theorem batchLists_cons_meta (cs : List Str) (evs : List SEvent) :
    batchLists (SEvent.metadata cs :: evs) = batchLists evs := rfl

/-- A leading `query-metadata` heads the metadata list. -/
theorem metaLists_cons_meta (cs : List Str) (evs : List SEvent) :
    metaLists (SEvent.metadata cs :: evs) = cs :: metaLists evs := rfl

/-- A leading `query-metadata` contributes no completion. -/
theorem completeTotals_cons_meta (cs : List Str) (evs : List SEvent) :
    completeTotals (SEvent.metadata cs :: evs) = completeTotals evs := rfl

/-- C2: for every streaming run that reaches `query-complete` (error-free
cursor, cancellation latch not fired before the stream is exhausted) over
rows of uniform shape: exactly one `query-complete` is emitted and its
`total_rows` equals the sum of `len(rows)` over all emitted `query-batch`
events; every batch carries at most 1000 rows; and every row of every batch
has exactly as many values as the `query-metadata` event has columns. -/
theorem c2_streaming_totals_consistent (cell : RawValue → JValue)
    (rows : List Row) (cols0 : List Str) (c : Option Nat)
    (hc : ∀ k, c = some k → rows.length ≤ k)
    (hcols : ∀ row ∈ rows, row.cols = cols0)
    (hw : ∀ row ∈ rows, row.vals.length = cols0.length) :
    completeTotals (streamRun cell (rows.map Except.ok) c).1 = [rows.length]
    ∧ batchRowSum (streamRun cell (rows.map Except.ok) c).1 = rows.length
    ∧ (∀ b ∈ batchLists (streamRun cell (rows.map Except.ok) c).1, b.length ≤ 1000)
    ∧ (∀ cs ∈ metaLists (streamRun cell (rows.map Except.ok) c).1,
        ∀ b ∈ batchLists (streamRun cell (rows.map Except.ok) c).1,
        ∀ r ∈ b, r.length = cs.length) := by
  obtain ⟨bs, heq, hsum, hle, hw'⟩ :=
    streamRun_ok_spec cell cols0.length cols0 c rows hc hcols
  rw [heq]
  have hbl : batchLists
      ((if rows.isEmpty = true then ([] : List SEvent) else [SEvent.metadata cols0])
        ++ List.map SEvent.batch bs ++ [SEvent.complete rows.length]) = bs := by
    cases hre : rows.isEmpty <;>
      simp [hre, batchLists_cons_meta, batchLists_append, batchLists_batch_map,
        batchLists_meta, batchLists_complete]
  have hml : ∀ cs ∈ metaLists
      ((if rows.isEmpty = true then ([] : List SEvent) else [SEvent.metadata cols0])
        ++ List.map SEvent.batch bs ++ [SEvent.complete rows.length]), cs = cols0 := by
    cases hre : rows.isEmpty <;>
      simp [hre, metaLists_cons_meta, metaLists_append, metaLists_batch_map,
        metaLists_meta, metaLists_complete]
  have hct : completeTotals
      ((if rows.isEmpty = true then ([] : List SEvent) else [SEvent.metadata cols0])
        ++ List.map SEvent.batch bs ++ [SEvent.complete rows.length]) = [rows.length] := by
    cases hre : rows.isEmpty <;>
      simp [hre, completeTotals_cons_meta, completeTotals_append,
        completeTotals_batch_map, completeTotals_meta, completeTotals_complete]
  refine ⟨hct, ?_, ?_, ?_⟩
  · have hbrs : batchRowSum
        ((if rows.isEmpty = true then ([] : List SEvent) else [SEvent.metadata cols0])
          ++ List.map SEvent.batch bs ++ [SEvent.complete rows.length]) = rows.length := by
      unfold batchRowSum
      rw [hbl]
      exact hsum
    exact hbrs
  · intro b hb
    simp only [hbl] at hb
    exact hle b hb
  · intro cs hcs b hb r hr
    simp only [hbl] at hb
    have hcs0 : cs = cols0 := hml cs hcs
    subst hcs0
    exact hw' hw b hb r hr

/-- A leading `query-batch` contributes no completion. -/
theorem completeTotals_cons_batch (b : List (List JValue)) (evs : List SEvent) :
    completeTotals (SEvent.batch b :: evs) = completeTotals evs := rfl

/-- The metadata-if emitted at a loop step contributes no completion. -/
theorem completeTotals_evMeta (sent : Bool) (cs : List Str) :
    completeTotals (if sent then [] else [SEvent.metadata cs]) = [] := by
  cases sent <;> rfl

/-- Prefixes are preserved by prepending a common part. -/
theorem isPrefix_of_append_left {α : Type} (l : List α) {a b : List α} (h : a <+: b) :
    l ++ a <+: l ++ b := by
  obtain ⟨t, rfl⟩ := h
  exact ⟨t, by simp⟩

/-! ## C3 -/

/-- C3 (amended): every successful (uncancelled, error-free) streaming run
emits exactly one `query-complete`, as the last event, with no batch after
it; when the result set is nonempty, exactly one `query-metadata` is
emitted, first, before every batch; when the result set is empty, *no*
`query-metadata` is emitted at all (the metadata emission lives inside the
row loop) — the trace is exactly `[query-complete]`. -/
theorem c3_streaming_event_shape_amended (cell : RawValue → JValue)
    (rows : List Row) (cols0 : List Str) (c : Option Nat)
    (hc : ∀ k, c = some k → rows.length ≤ k)
    (hcols : ∀ row ∈ rows, row.cols = cols0) :
    ∃ bs : List (List (List JValue)),
      (streamRun cell (rows.map Except.ok) c).1
        = (if rows.isEmpty then ([] : List SEvent) else [SEvent.metadata cols0])
            ++ bs.map SEvent.batch ++ [SEvent.complete rows.length]
      ∧ (streamRun cell (rows.map Except.ok) c).2 = Except.ok () := by
  obtain ⟨bs, heq, -, -, -⟩ := streamRun_ok_spec cell 0 cols0 c rows hc hcols
  exact ⟨bs, by rw [heq], by rw [heq]⟩

/-- Witness for C3 (amended) on the concrete two-row cursor. -/
theorem c3_streaming_event_shape_amended_witness :
    ∃ bs : List (List (List JValue)),
      (streamRun postgresMapCell (rowsW.map Except.ok) none).1
        = (if rowsW.isEmpty then ([] : List SEvent) else [SEvent.metadata ["x".toList]])
            ++ bs.map SEvent.batch ++ [SEvent.complete rowsW.length]
      ∧ (streamRun postgresMapCell (rowsW.map Except.ok) none).2 = Except.ok () :=
  c3_streaming_event_shape_amended postgresMapCell rowsW ["x".toList] none
    (fun k hk => by cases hk) (by decide)

/-- Witness for C2 on the concrete two-row cursor. -/
theorem c2_streaming_totals_consistent_witness :
    completeTotals (streamRun postgresMapCell (rowsW.map Except.ok) none).1 = [rowsW.length]
    ∧ batchRowSum (streamRun postgresMapCell (rowsW.map Except.ok) none).1 = rowsW.length
    ∧ (∀ b ∈ batchLists (streamRun postgresMapCell (rowsW.map Except.ok) none).1,
        b.length ≤ 1000)
    ∧ (∀ cs ∈ metaLists (streamRun postgresMapCell (rowsW.map Except.ok) none).1,
        ∀ b ∈ batchLists (streamRun postgresMapCell (rowsW.map Except.ok) none).1,
        ∀ r ∈ b, r.length = cs.length) :=
  c2_streaming_totals_consistent postgresMapCell rowsW ["x".toList] none
    (fun k hk => by cases hk) (by decide) (by decide)

/-! ## C4 -/

/-- Once the cancellation latch is due to fire at a row boundary still ahead
of the cursor, the run returns `Ok`, emits no `query-complete`, and its
trace is a prefix of the uncancelled run's trace (only events already in
flight before the cancellation boundary are emitted). -/
theorem runAux_cancelled_stops (cell : RawValue → JValue) (k : Nat) :
    ∀ (rows : List Row) (i : Nat) (batch : List (List JValue)) (total : Nat) (sent : Bool),
    i ≤ k → k - i < rows.length →
    (runAux cell (some k) (rows.map Except.ok) i batch total sent).2 = Except.ok ()
    ∧ completeTotals (runAux cell (some k) (rows.map Except.ok) i batch total sent).1 = []
    ∧ (runAux cell (some k) (rows.map Except.ok) i batch total sent).1
        <+: (runAux cell none (rows.map Except.ok) i batch total sent).1 := by
  intro rows
  induction rows with
  | nil =>
      intro i batch total sent hik hki
      simp only [List.length_nil] at hki
      exact absurd hki (by omega)
  | cons row rest ih =>
      intro i batch total sent hik hki
      by_cases hcan : k ≤ i
      · have hc : isCancelled (some k) i = true := by
          simp [isCancelled, hcan]
        have h0 : runAux cell (some k) ((row :: rest).map Except.ok) i batch total sent
            = ([], Except.ok ()) := by
          simp [runAux, hc]
        rw [h0]
        exact ⟨rfl, rfl, List.nil_prefix⟩
      · have hlt : i < k := by omega
        have hc : isCancelled (some k) i = false := by
          simp only [isCancelled, decide_eq_false_iff_not]
          omega
        have hcnone : isCancelled none i = false := rfl
        have hik' : i + 1 ≤ k := hlt
        have hki' : k - (i + 1) < rest.length := by
          simp only [List.length_cons] at hki
          omega
        by_cases hflush : 1000 ≤ (batch ++ [mapRow cell row]).length
        · have hflush2 : 1000 ≤ batch.length + 1 := by simpa using hflush
          have e1 : runAux cell (some k) ((row :: rest).map Except.ok) i batch total sent
              = ((if sent then [] else [SEvent.metadata row.cols])
                  ++ SEvent.batch (batch ++ [mapRow cell row])
                    :: (runAux cell (some k) (rest.map Except.ok) (i + 1) [] (total + 1) true).1,
                 (runAux cell (some k) (rest.map Except.ok) (i + 1) [] (total + 1) true).2) := by
            simp [runAux, hc, hflush2]
          have e2 : runAux cell none ((row :: rest).map Except.ok) i batch total sent
              = ((if sent then [] else [SEvent.metadata row.cols])
                  ++ SEvent.batch (batch ++ [mapRow cell row])
                    :: (runAux cell none (rest.map Except.ok) (i + 1) [] (total + 1) true).1,
                 (runAux cell none (rest.map Except.ok) (i + 1) [] (total + 1) true).2) := by
            simp [runAux, hcnone, hflush2]
          obtain ⟨hok, hct, hpre⟩ := ih (i + 1) [] (total + 1) true hik' hki'
          rw [e1, e2]
          refine ⟨hok, ?_, ?_⟩
          · simp [completeTotals_append, completeTotals_evMeta,
              completeTotals_cons_batch, hct]
          · exact isPrefix_of_append_left _ ( List.cons_prefix_cons.2 ⟨rfl, hpre⟩)
        · have hflush2 : ¬(1000 ≤ batch.length + 1) := by simpa using hflush
          have e1 : runAux cell (some k) ((row :: rest).map Except.ok) i batch total sent
              = ((if sent then [] else [SEvent.metadata row.cols])
                  ++ (runAux cell (some k) (rest.map Except.ok) (i + 1)
                      (batch ++ [mapRow cell row]) (total + 1) true).1,
                 (runAux cell (some k) (rest.map Except.ok) (i + 1)
                      (batch ++ [mapRow cell row]) (total + 1) true).2) := by
            simp [runAux, hc, hflush2]
          have e2 : runAux cell none ((row :: rest).map Except.ok) i batch total sent
              = ((if sent then [] else [SEvent.metadata row.cols])
                  ++ (runAux cell none (rest.map Except.ok) (i + 1)
                      (batch ++ [mapRow cell row]) (total + 1) true).1,
                 (runAux cell none (rest.map Except.ok) (i + 1)
                      (batch ++ [mapRow cell row]) (total + 1) true).2) := by
            simp [runAux, hcnone, hflush2]
          obtain ⟨hok, hct, hpre⟩ :=
            ih (i + 1) (batch ++ [mapRow cell row]) (total + 1) true hik' hki'
          rw [e1, e2]
          refine ⟨hok, ?_, ?_⟩
          · simp [completeTotals_append, completeTotals_evMeta, hct]
          · exact isPrefix_of_append_left _ hpre

/-- C4: if the cancellation token fires at row boundary `k` with rows still
ahead of the cursor, `execute_query_streaming` returns `Ok` without ever
emitting `query-complete`, and its whole event trace is a prefix of the
uncancelled run's trace: no batch or completion beyond what was already in
flight at the cancellation boundary is emitted. -/
theorem c4_streaming_cancellation (cell : RawValue → JValue)
    (rows : List Row) (k : Nat) (hk : k < rows.length) :
    (streamRun cell (rows.map Except.ok) (some k)).2 = Except.ok ()
    ∧ completeTotals (streamRun cell (rows.map Except.ok) (some k)).1 = []
    ∧ (streamRun cell (rows.map Except.ok) (some k)).1
        <+: (streamRun cell (rows.map Except.ok) none).1 :=
  runAux_cancelled_stops cell k rows 0 [] 0 false (Nat.zero_le k) (by omega)

/-- Witness for C4: cancelling after the first of two rows. -/
theorem c4_streaming_cancellation_witness :
    (streamRun postgresMapCell (rowsW.map Except.ok) (some 1)).2 = Except.ok ()
    ∧ completeTotals (streamRun postgresMapCell (rowsW.map Except.ok) (some 1)).1 = []
    ∧ (streamRun postgresMapCell (rowsW.map Except.ok) (some 1)).1
        <+: (streamRun postgresMapCell (rowsW.map Except.ok) none).1 :=
  c4_streaming_cancellation postgresMapCell rowsW 1 (by decide)
